import Mathlib

/-!
Verification development for the cita-bft repository (files src/main.rs and
src/core/ntp.rs). The definitions below are a shallow embedding of the Rust
code; stateful or effectful code is embedded by passing the effect outcomes
(the NTP query result and the locally read destination time) as explicit
arguments.
-/

namespace CitaBft

/-! ### Embedding of the time-crate types used by src/core/ntp.rs

The time 0.1 crate represents a `Timespec` as seconds plus nanoseconds and a
`Duration` as a normalized (secs, nanos) pair; subtraction of two `Timespec`
values and addition of `Duration` values are exact on the total nanosecond
count, `Duration::num_milliseconds` truncates the total nanosecond count
toward zero, and division of a `Duration` by a positive integer normalizes to
floor division on the total nanosecond count. We therefore model a `Duration`
by its total nanosecond count as an unbounded integer (overflow is immaterial
to the claims, which stay far inside the i64-millisecond range the crate
enforces). -/

/-- time::Timespec: a point in time, seconds and nanoseconds. -/
structure Timespec where
  sec : Int
  nsec : Int
  deriving DecidableEq, Repr

/-- A time::Duration, modelled by its total nanosecond count. -/
abbrev Duration := Int

/-- Total nanoseconds of a Timespec. -/
def Timespec.toNanos (t : Timespec) : Int := t.sec * 1000000000 + t.nsec

/-- time::Timespec subtraction, yielding a Duration (exact in nanoseconds). -/
def Timespec.sub (a b : Timespec) : Duration := Timespec.toNanos a - Timespec.toNanos b

/-- time::Duration addition (exact in nanoseconds). -/
def Duration.add (a b : Duration) : Duration := a + b

/-- time::Duration::num_milliseconds: whole milliseconds, truncated toward
zero (T-division, matching the secs/nanos computation in the time crate). -/
def Duration.num_milliseconds (d : Duration) : Int := Int.tdiv d 1000000

/-- time::Duration division by 2 (the `/ 2` in ntp.rs line 79). On the
normalized (secs, nanos) representation the crate computes floor division of
the total nanosecond count. -/
def Duration.div2 (d : Duration) : Duration := Int.fdiv d 2

/-- i64::abs on a millisecond count. -/
def i64_abs (x : Int) : Int := |x|

/-! ### Embedding of src/core/ntp.rs -/

/-- An NTP query error (ntp::errors::Error); its content is never inspected
by the code under verification, only matched on. -/
structure NtpError where
  msg : String
  deriving DecidableEq, Repr

/-- The fields of the NTP reply packet read by system_clock_offset, already
converted to Timespec (`Timespec::from(packet.orig_time)` etc.). -/
structure NtpPacket where
  orig_time : Timespec
  recv_time : Timespec
  transmit_time : Timespec
  deriving DecidableEq, Repr

/-- The Ntp configuration struct (ntp.rs lines 47-52). -/
structure Ntp where
  enabled : Bool
  threshold : Int
  address : String

/-- Ntp::system_clock_offset (ntp.rs lines 71-88). The effect outcomes are
passed explicitly: `query` is the result of `request(self.address)` and
`dest` is the locally read `now_utc().to_timespec()`. On success the code
computes `((recv - orig) + (transmit - dest)) / 2` in Duration arithmetic. -/
def Ntp.system_clock_offset (query : Except NtpError NtpPacket) (dest : Timespec) :
    Except NtpError Duration :=
  match query with
  | Except.ok packet =>
    let orig := packet.orig_time
    let recv := packet.recv_time
    let transmit := packet.transmit_time
    let offset := Duration.div2
      (Duration.add (Timespec.sub recv orig) (Timespec.sub transmit dest))
    Except.ok offset
  | Except.error err => Except.error err

/-- Ntp::is_clock_offset_overflow (ntp.rs lines 56-68): on a successful
query, true exactly when `offset.num_milliseconds().abs() > self.threshold`;
on a failed query, true. -/
def Ntp.is_clock_offset_overflow (self : Ntp) (query : Except NtpError NtpPacket)
    (dest : Timespec) : Bool :=
  match Ntp.system_clock_offset query dest with
  | Except.ok offset =>
    if i64_abs (Duration.num_milliseconds offset) > self.threshold then true else false
  | Except.error _ => true

/-- Clock offset formula as the spec words it: t = ((T2 - T1) + (T3 - T4)) / 2,
with T1 = originate, T2 = receive, T3 = transmit, T4 = destination, the
division being the halving of a signed duration (floor on nanoseconds, as the
Duration type divides). Written from the spec for the refinement claims. -/
def spec_clock_offset (t1 t2 t3 t4 : Int) : Int := Int.fdiv ((t2 - t1) + (t3 - t4)) 2

/-- Round-trip delay formula as the spec words it: d = (T4 - T1) - (T3 - T2).
Written from the spec; ntp.rs computes no such value. -/
def spec_round_trip_delay (t1 t2 t3 t4 : Int) : Int := (t4 - t1) - (t3 - t2)

/-! ### Embedding of the wiring in src/main.rs -/

/-- The channel endpoints created in main (main.rs lines 136-148). -/
inductive ChannelEnd
  | main2timer
  | timer4main
  | sender
  | receiver
  | tx_sub
  | rx_sub
  | tx_pub
  | rx_pub
  deriving DecidableEq, Repr

/-- Channel endpoints moved into the Bft engine (main.rs line 175:
`Bft::new(tx_pub, main2timer, receiver, params)`); `receiver` is its only
inbound endpoint. -/
def bftEngineInputChannels : List ChannelEnd := [ChannelEnd.receiver]

/-- Channel endpoints captured by the NTP service closure (main.rs lines
190-203): the closure moves only `ntp_config` and `log_tag`, no channel. -/
def ntpThreadChannels : List ChannelEnd := []

/-- One scheduled observation of the NTP loop: the outcome of the query
together with the locally read destination time. -/
abbrev NtpEvent := Except NtpError NtpPacket × Timespec

/-- Observable effects of one iteration of the NTP loop body. -/
structure NtpIterOut where
  warned : Bool
  log_tag : Nat
  sleep_secs : Nat
  sends : List ChannelEnd
  deriving DecidableEq, Repr

/-- One iteration of the NTP service loop body (main.rs lines 190-203):
when is_clock_offset_overflow holds the loop logs a warning and increments
the u8 counter `log_tag` (wrapping), sleeping an extra 1000 seconds and
resetting the counter every tenth consecutive warning; otherwise the counter
resets; the body then sleeps 10 seconds. The body performs no channel
operation, so `sends` is empty on every path. -/
def ntpLoopIter (ntp_config : Ntp) (ev : NtpEvent) (log_tag : Nat) : NtpIterOut :=
  if Ntp.is_clock_offset_overflow ntp_config ev.1 ev.2 then
    let tag := (log_tag + 1) % 256
    if tag == 10 then
      { warned := true, log_tag := 0, sleep_secs := 1000 + 10, sends := [] }
    else
      { warned := true, log_tag := tag, sleep_secs := 10, sends := [] }
  else
    { warned := false, log_tag := 0, sleep_secs := 10, sends := [] }

/-- The NTP loop run over a finite schedule of observations; the loop body
never exits or aborts, so every scheduled observation produces an iteration
output. -/
def ntpLoopRun (ntp_config : Ntp) (log_tag : Nat) : List NtpEvent → List NtpIterOut
  | [] => []
  | ev :: rest =>
    let out := ntpLoopIter ntp_config ev log_tag
    out :: ntpLoopRun ntp_config out.log_tag rest

/-- The NTP service as started by main (main.rs line 189): the loop thread is
spawned only when `ntp_config.enabled` holds; otherwise no iteration ever
runs. -/
def ntpService (ntp_config : Ntp) (events : List NtpEvent) : List NtpIterOut :=
  if ntp_config.enabled then ntpLoopRun ntp_config 0 events else []

/-! ### Message routing (main.rs lines 149-161) -/

/-- The PubModule values appearing in the routing keys of main.rs. -/
inductive PubModule
  | Net
  | Chain
  | Auth
  | Snapshot
  deriving DecidableEq, Repr

/-- The message types appearing in the subscription list of main.rs. -/
inductive MsgType
  | CompactSignedProposal
  | RawBytes
  | RichStatus
  | BlockTxs
  | VerifyBlockResp
  | SnapshotReq
  deriving DecidableEq, Repr

/-- A routing key: source module and message type. -/
structure RoutingKey where
  pubModule : PubModule
  msgType : MsgType
  deriving DecidableEq, Repr

/-- The routing keys passed to start_pubsub for the consensus queue
(main.rs lines 151-158), in source order. -/
def consensusSubscriptions : List RoutingKey :=
  [ ⟨PubModule.Net, MsgType.CompactSignedProposal⟩,
    ⟨PubModule.Net, MsgType.RawBytes⟩,
    ⟨PubModule.Chain, MsgType.RichStatus⟩,
    ⟨PubModule.Auth, MsgType.BlockTxs⟩,
    ⟨PubModule.Auth, MsgType.VerifyBlockResp⟩,
    ⟨PubModule.Snapshot, MsgType.SnapshotReq⟩ ]

/-- The six inbound message types named in the spec, written from the spec
inbound-message list for the refinement claim. -/
def specInboundSubscriptions : List RoutingKey :=
  [ ⟨PubModule.Net, MsgType.CompactSignedProposal⟩,
    ⟨PubModule.Net, MsgType.RawBytes⟩,
    ⟨PubModule.Chain, MsgType.RichStatus⟩,
    ⟨PubModule.Auth, MsgType.BlockTxs⟩,
    ⟨PubModule.Auth, MsgType.VerifyBlockResp⟩,
    ⟨PubModule.Snapshot, MsgType.SnapshotReq⟩ ]

/-! ### Profiler flag processing (main.rs lines 124-133) -/

/-- Rust `str::parse::<u64>` (u64::from_str): an optional leading plus sign,
then one or more ASCII digits, value within u64 range; anything else is a
parse error. -/
def parseU64 (s : String) : Option Nat :=
  match s.data with
  | [] => none
  | c :: cs =>
    let ds := if c = '+' then cs else c :: cs
    if ds = [] then none
    else if List.all ds Char.isDigit then
      let n := List.foldl (fun acc d => acc * 10 + (Char.toNat d - 48)) 0 ds
      if n < 2 ^ 64 then some n else none
    else none

/-- Processing of one profiler CLI value (main.rs lines 124-133):
`matches.value_of(..).unwrap_or("0").parse::<u64>()`. `none` models a parse
error, on which the subsequent `.unwrap()` panics and aborts the process. -/
def prof_flag_value (v : Option String) : Option Nat := parseU64 (Option.getD v "0")

/-- Whether the prof-start/prof-duration processing in main aborts the
process: it does exactly when either `.parse::<u64>()` result is an Err and
its `.unwrap()` panics. -/
def prof_processing_aborts (profStart profDuration : Option String) : Bool :=
  Option.isNone (prof_flag_value profStart) || Option.isNone (prof_flag_value profDuration)

/-! ### Shared helper lemmas -/

/-- The NTP loop processes every scheduled observation: the run never stops
early, whatever the query outcomes. -/
theorem ntpLoopRun_length (ntp_config : Ntp) (log_tag : Nat) (events : List NtpEvent) :
    (ntpLoopRun ntp_config log_tag events).length = events.length := by
  induction events generalizing log_tag with
  | nil => rfl
  | cons ev rest ih => simp [ntpLoopRun, ih]

/-- The NTP loop body warns exactly when is_clock_offset_overflow holds. -/
theorem ntpLoopIter_warned (ntp_config : Ntp) (ev : NtpEvent) (log_tag : Nat) :
    (ntpLoopIter ntp_config ev log_tag).warned =
      Ntp.is_clock_offset_overflow ntp_config ev.1 ev.2 := by
  unfold ntpLoopIter
  split
  · simp only []
    split <;> simp_all
  · simp_all

/-! ### Claim theorems -/

/-- C1: for every successful NTP query returning originate, receive and
transmit timestamps and a locally read destination time, system_clock_offset
returns exactly the spec formula t = ((T2 - T1) + (T3 - T4)) / 2, i.e.
((recv - orig) + (transmit - dest)) / 2. -/
theorem C1_system_clock_offset_eq_spec (packet : NtpPacket) (dest : Timespec) :
    Ntp.system_clock_offset (Except.ok packet) dest =
      Except.ok (spec_clock_offset (Timespec.toNanos packet.orig_time)
        (Timespec.toNanos packet.recv_time) (Timespec.toNanos packet.transmit_time)
        (Timespec.toNanos dest)) := rfl

/-- C2: for every successful NTP query, is_clock_offset_overflow returns true
exactly when the absolute value of the computed offset in whole milliseconds
strictly exceeds the configured threshold, and the surrounding loop warns
exactly when is_clock_offset_overflow returns true. -/
theorem C2_overflow_iff_abs_offset_gt_threshold (cfg : Ntp) (packet : NtpPacket)
    (dest : Timespec) (log_tag : Nat) :
    (Ntp.is_clock_offset_overflow cfg (Except.ok packet) dest = true ↔
      i64_abs (Duration.num_milliseconds (spec_clock_offset
        (Timespec.toNanos packet.orig_time) (Timespec.toNanos packet.recv_time)
        (Timespec.toNanos packet.transmit_time) (Timespec.toNanos dest))) > cfg.threshold) ∧
    (ntpLoopIter cfg (Except.ok packet, dest) log_tag).warned =
      Ntp.is_clock_offset_overflow cfg (Except.ok packet) dest := by
  constructor
  · unfold Ntp.is_clock_offset_overflow Ntp.system_clock_offset spec_clock_offset
    simp [Duration.div2, Duration.add, Timespec.sub]
  · exact ntpLoopIter_warned cfg (Except.ok packet, dest) log_tag

/-- C3: for every failed NTP query, is_clock_offset_overflow returns true,
the loop body logs a warning, and the loop continues: a run whose first
observation is a query failure still processes every later observation. -/
theorem C3_query_failure_fails_safe (cfg : Ntp) (e : NtpError) (dest : Timespec)
    (log_tag : Nat) (rest : List NtpEvent) :
    Ntp.is_clock_offset_overflow cfg (Except.error e) dest = true ∧
    (ntpLoopIter cfg (Except.error e, dest) log_tag).warned = true ∧
    (ntpLoopRun cfg log_tag ((Except.error e, dest) :: rest)).length = rest.length + 1 := by
  refine ⟨rfl, ?_, ?_⟩
  · rw [ntpLoopIter_warned]; rfl
  · simp [ntpLoopRun, ntpLoopRun_length]

/-- C4: spec scenario in milliseconds with threshold 50: T1=0, T2=50, T3=60,
T4=120 gives offset -5 ms and no warning; the same with T3=400 gives offset
165 ms and a warning. -/
theorem C4_concrete_scenario :
    Ntp.system_clock_offset
      (Except.ok ⟨⟨0, 0⟩, ⟨0, 50000000⟩, ⟨0, 60000000⟩⟩) ⟨0, 120000000⟩ =
      Except.ok (-5000000) ∧
    Duration.num_milliseconds (-5000000) = -5 ∧
    Ntp.is_clock_offset_overflow ⟨true, 50, "0.pool.ntp.org:123"⟩
      (Except.ok ⟨⟨0, 0⟩, ⟨0, 50000000⟩, ⟨0, 60000000⟩⟩) ⟨0, 120000000⟩ = false ∧
    Ntp.system_clock_offset
      (Except.ok ⟨⟨0, 0⟩, ⟨0, 50000000⟩, ⟨0, 400000000⟩⟩) ⟨0, 120000000⟩ =
      Except.ok 165000000 ∧
    Duration.num_milliseconds 165000000 = 165 ∧
    Ntp.is_clock_offset_overflow ⟨true, 50, "0.pool.ntp.org:123"⟩
      (Except.ok ⟨⟨0, 0⟩, ⟨0, 50000000⟩, ⟨0, 400000000⟩⟩) ⟨0, 120000000⟩ = true := by
  refine ⟨rfl, rfl, rfl, rfl, rfl, rfl⟩

/-- C5: the NTP loop body sends on no channel on any path, the NTP thread
closure holds no channel endpoint at all, and in particular it shares no
endpoint with the Bft engine inbox; so the engine inputs are unaffected by
the value of is_clock_offset_overflow. -/
theorem C5_ntp_never_feeds_consensus :
    (∀ (cfg : Ntp) (ev : NtpEvent) (log_tag : Nat),
      (ntpLoopIter cfg ev log_tag).sends = []) ∧
    ntpThreadChannels = [] ∧
    List.inter ntpThreadChannels bftEngineInputChannels = [] := by
  refine ⟨?_, rfl, rfl⟩
  intro cfg ev log_tag
  unfold ntpLoopIter
  split
  · simp only []
    split <;> rfl
  · rfl

/-- C6 counterexample: the collaborator's entire output on a successful query
is the offset value, and two queries with different round-trip delays
(d = 0 ns versus d = 2 ns) produce identical outputs; hence the round-trip
delay is not computed (it is not recoverable from anything the code
produces). -/
theorem C6_counterexample :
    Ntp.system_clock_offset (Except.ok ⟨⟨0, 0⟩, ⟨0, 0⟩, ⟨0, 0⟩⟩) ⟨0, 0⟩ =
      Ntp.system_clock_offset (Except.ok ⟨⟨0, 0⟩, ⟨0, 1⟩, ⟨0, 1⟩⟩) ⟨0, 2⟩ ∧
    spec_round_trip_delay (Timespec.toNanos ⟨0, 0⟩) (Timespec.toNanos ⟨0, 0⟩)
        (Timespec.toNanos ⟨0, 0⟩) (Timespec.toNanos ⟨0, 0⟩) ≠
      spec_round_trip_delay (Timespec.toNanos ⟨0, 0⟩) (Timespec.toNanos ⟨0, 1⟩)
        (Timespec.toNanos ⟨0, 1⟩) (Timespec.toNanos ⟨0, 2⟩) := by
  refine ⟨rfl, by decide⟩

/-- C6 amended: on each successful query the clock-sanity collaborator
computes only the clock offset t = ((T2 - T1) + (T3 - T4)) / 2; its output
carries no round-trip delay. -/
theorem C6_amended_only_offset_computed (packet : NtpPacket) (dest : Timespec) :
    Ntp.system_clock_offset (Except.ok packet) dest =
      Except.ok (Duration.div2 (Duration.add
        (Timespec.sub packet.recv_time packet.orig_time)
        (Timespec.sub packet.transmit_time dest))) := rfl

/-- C7: the consensus queue subscribes to exactly the six routing keys of the
spec inbound-message list, each exactly once, and to no others. -/
theorem C7_subscriptions_exact :
    consensusSubscriptions = specInboundSubscriptions ∧
    consensusSubscriptions.length = 6 ∧
    consensusSubscriptions.Nodup := by
  refine ⟨rfl, rfl, by decide⟩

/-- C8 counterexample: the invocation passing the value "abc" for prof-start
(accepted by the CLI parser, which constrains profiler values in no way)
makes the profiler flag processing abort: `.parse::<u64>()` fails and the
subsequent `.unwrap()` panics, refuting the claim that no startup step other
than configuration loading aborts. -/
theorem C8_counterexample :
    prof_processing_aborts (some "abc") none = true := by decide

/-- C8 amended: besides unrecoverable configuration errors, startup also
aborts when a supplied prof-start or prof-duration value fails to parse as a
u64; whenever both profiler values parse (in particular when both are
absent, defaulting to "0"), the profiler flag processing does not abort. -/
theorem C8_amended_prof_parse_ok_no_abort (profStart profDuration : Option String)
    (hs : Option.isSome (prof_flag_value profStart) = true)
    (hd : Option.isSome (prof_flag_value profDuration) = true) :
    prof_processing_aborts profStart profDuration = false := by
  cases h1 : prof_flag_value profStart with
  | none => simp [h1] at hs
  | some n =>
    cases h2 : prof_flag_value profDuration with
    | none => simp [h2] at hd
    | some m => simp [prof_processing_aborts, h1, h2]

/-- C8 witness: both profiler values absent parse as 0 and the processing
does not abort. -/
theorem C8_witness :
    Option.isSome (prof_flag_value none) = true ∧
    Option.isSome (prof_flag_value (some "5")) = true ∧
    prof_processing_aborts none (some "5") = false := by
  refine ⟨by decide, by decide,
    C8_amended_prof_parse_ok_no_abort none (some "5") (by decide) (by decide)⟩

/-- C9: when the NTP configuration is disabled, main spawns no clock-sanity
loop: the service trace is empty whatever observations would have arrived,
so is_clock_offset_overflow is never invoked and no warning is ever
raised. -/
theorem C9_disabled_never_runs (cfg : Ntp) (events : List NtpEvent)
    (h : cfg.enabled = false) :
    ntpService cfg events = [] := by
  unfold ntpService
  rw [h]
  rfl

/-- C9 witness: with a disabled configuration and a schedule containing a
failing query and a wildly off clock, the service still does nothing. -/
theorem C9_witness :
    (Ntp.mk false 3000 "0.pool.ntp.org:123").enabled = false ∧
    ntpService (Ntp.mk false 3000 "0.pool.ntp.org:123")
      [(Except.error ⟨"timeout"⟩, ⟨0, 0⟩),
       (Except.ok ⟨⟨0, 0⟩, ⟨500, 0⟩, ⟨500, 0⟩⟩, ⟨0, 0⟩)] = [] := by
  refine ⟨rfl, C9_disabled_never_runs _ _ rfl⟩

/-- C10: the warning comparison is on the offset truncated to whole
milliseconds with strict inequality: whenever the truncated absolute offset
equals the threshold exactly, is_clock_offset_overflow returns false. -/
theorem C10_truncated_equal_threshold_no_warning (cfg : Ntp) (packet : NtpPacket)
    (dest : Timespec) (offset : Duration)
    (hoff : Ntp.system_clock_offset (Except.ok packet) dest = Except.ok offset)
    (hms : i64_abs (Duration.num_milliseconds offset) = cfg.threshold) :
    Ntp.is_clock_offset_overflow cfg (Except.ok packet) dest = false := by
  unfold Ntp.is_clock_offset_overflow
  rw [hoff]
  have hlt : ¬ (i64_abs (Duration.num_milliseconds offset) > cfg.threshold) := by
    rw [hms]
    exact lt_irrefl _
  simp [hlt]

/-- C10 witness: with threshold 50 ms, an offset of 50500000 ns (50.5 ms,
exceeding the threshold by a sub-millisecond amount) truncates to 50 ms and
raises no warning. -/
theorem C10_witness :
    Ntp.system_clock_offset (Except.ok ⟨⟨0, 0⟩, ⟨0, 101000000⟩, ⟨0, 0⟩⟩) ⟨0, 0⟩ =
      Except.ok 50500000 ∧
    i64_abs (Duration.num_milliseconds 50500000) = (50 : Int) ∧
    (50 : Int) * 1000000 < 50500000 ∧
    Ntp.is_clock_offset_overflow ⟨true, 50, "0.pool.ntp.org:123"⟩
      (Except.ok ⟨⟨0, 0⟩, ⟨0, 101000000⟩, ⟨0, 0⟩⟩) ⟨0, 0⟩ = false := by
  refine ⟨rfl, by decide, by decide,
    C10_truncated_equal_threshold_no_warning ⟨true, 50, "0.pool.ntp.org:123"⟩
      ⟨⟨0, 0⟩, ⟨0, 101000000⟩, ⟨0, 0⟩⟩ ⟨0, 0⟩ 50500000 rfl (by decide)⟩

end CitaBft
